import Mathlib

/-!
Shallow embedding of the order-creation / payment-settlement handshake of the
Premamsilks storefront (Firebase Cloud Functions `createOrder` and
`verifyPayment`).  Firestore is modelled as explicit lookup functions; the
Razorpay gateway and the Firestore writes are modelled by explicit success
flags and by recording the documents a call creates.  JavaScript numbers are
modelled as `Int` (with exact rational arithmetic for `Math.round`), and the
JS `||`-defaulting idiom is modelled by `jsOr` / `jsOrStr`.
-/

namespace PremamSilks

/-- JS `settings.field || default` on a numeric field: an absent field or the
(falsy) value `0` falls back to the default. -/
def jsOr (x : Option Int) (d : Int) : Int :=
  match x with
  | some v => if v = 0 then d else v
  | none => d

/-- JS `a || b` on an optional string: absent or empty falls back. -/
def jsOrStr (x : Option String) (d : String) : String :=
  match x with
  | some v => if v = "" then d else v
  | none => d

/-- JS `phone.replace(/\s/g, "")`. -/
def stripSpaces (s : String) : String :=
  ⟨s.data.filter (fun c => ¬ c.isWhitespace)⟩

/-- A catalog document in the `products` collection.  `stock` may be absent
(`undefined` in JS), meaning unlimited. -/
structure Product where
  name : String
  price : Int
  stock : Option Int
  image : Option String
  images : List String
deriving Repr, DecidableEq

/-- A client-submitted cart line.  The handler reads only `productId` and
`quantity`; `clientPrice` models any price field the client also submits,
which the code never looks at. -/
structure CartLine where
  productId : String
  quantity : Int
  clientPrice : Option Int := none
deriving Repr, DecidableEq

structure Customer where
  name : String
  email : String
  phone : String
deriving Repr, DecidableEq

structure ShippingAddress where
  address : String
  city : String
  state : Option String := none
  pincode : String
deriving Repr, DecidableEq

/-- The address as persisted on an order (`country` is hard-coded). -/
structure OrderAddress where
  address : String
  city : String
  state : String
  pincode : String
  country : String
deriving Repr, DecidableEq

/-- A verified line item: name/price/image snapshotted from the catalog. -/
structure VerifiedItem where
  productId : String
  name : String
  price : Int
  quantity : Int
  image : String
deriving Repr, DecidableEq

/-- The `settings/store` singleton document; each field may be absent. -/
structure StoreSettings where
  freeShippingThreshold : Option Int := none
  shippingCost : Option Int := none
  gst : Option Int := none
deriving Repr, DecidableEq

/-- An order document in the `orders` collection. -/
structure Order where
  customer : Customer
  shippingAddress : OrderAddress
  items : List VerifiedItem
  itemCount : Int
  subtotal : Int
  shipping : Int
  gst : Int
  totalAmount : Int
  notes : String
  razorpayOrderId : String
  paymentMethod : String
  status : String
  razorpayPaymentId : Option String := none
  razorpaySignature : Option String := none
  paidAt : Bool := false
deriving Repr, DecidableEq

/-- A payment order created on the Razorpay gateway (amount in paise). -/
structure GatewayOrder where
  id : String
  amount : Int
  currency : String
deriving Repr, DecidableEq

/-- The error responses `createOrder` can return. -/
inductive CreateErr where
  | cartRequired
  | customerRequired
  | addressRequired
  | productNotFound (productId : String)
  | outOfStock (name : String) (stock : Option Int)
  | internalError
deriving Repr, DecidableEq

/-- The 200 response body of `createOrder`. -/
structure CreateOk where
  orderId : String
  razorpayOrderId : String
  amount : Int
  currency : String
deriving Repr, DecidableEq

instance : DecidableEq (Except CreateErr CreateOk) := fun x y =>
  match x, y with
  | .error a, .error b =>
    if h : a = b then .isTrue (by rw [h]) else .isFalse (by simp [h])
  | .ok a, .ok b =>
    if h : a = b then .isTrue (by rw [h]) else .isFalse (by simp [h])
  | .error _, .ok _ => .isFalse (by simp)
  | .ok _, .error _ => .isFalse (by simp)

/-- Everything observable after one `createOrder` call: the HTTP response,
the gateway order created during the call (if any), and the Firestore order
document persisted (if any). -/
structure CreateOutcome where
  result : Except CreateErr CreateOk
  gatewayCreated : Option GatewayOrder
  orderPersisted : Option Order
deriving Repr, DecidableEq

structure CreateOrderRequest where
  items : List CartLine
  customer : Option Customer
  shippingAddress : Option ShippingAddress
  notes : Option String
deriving Repr, DecidableEq

/-- `!customer?.name || !customer?.email || !customer?.phone` (truthiness). -/
def customerOk : Option Customer → Bool
  | none => false
  | some c => c.name ≠ "" ∧ c.email ≠ "" ∧ c.phone ≠ ""

/-- `!shippingAddress?.address || !shippingAddress?.city || !shippingAddress?.pincode`. -/
def addressOk : Option ShippingAddress → Bool
  | none => false
  | some a => a.address ≠ "" ∧ a.city ≠ "" ∧ a.pincode ≠ ""

/-- `product.stock !== undefined && product.stock < quantity` fails; so the
line passes iff the stock is absent or not below the quantity. -/
def stockOk (p : Product) (quantity : Int) : Bool :=
  match p.stock with
  | some s => ¬ s < quantity
  | none => true

/-- The verified line item built from a cart line and its catalog product:
`{ productId, name, price, quantity, image: product.image || product.images?.[0] || "" }`. -/
def verifiedOf (line : CartLine) (p : Product) : VerifiedItem :=
  { productId := line.productId
    name := p.name
    price := p.price
    quantity := line.quantity
    image := jsOrStr p.image (jsOrStr p.images.head? "") }

/-- The per-line loop of `createOrder` (lines 57–82 of the source): walk the
cart in client order, reject on a missing product or insufficient finite
stock, otherwise accumulate `subtotal += product.price * quantity` and the
verified items. -/
def processItems (catalog : String → Option Product) :
    List CartLine → Except CreateErr (Int × List VerifiedItem)
  | [] => .ok (0, [])
  | line :: rest =>
    match catalog line.productId with
    | none => .error (.productNotFound line.productId)
    | some p =>
      if stockOk p line.quantity then
        match processItems catalog rest with
        | .error e => .error e
        | .ok (s, vs) => .ok (p.price * line.quantity + s, verifiedOf line p :: vs)
      else .error (.outOfStock p.name p.stock)

/-- JS `Math.round`: half-way cases round toward positive infinity. -/
def mathRound (q : ℚ) : ℤ := ⌊q + 1 / 2⌋

/-- `Math.round(subtotal * (gstRate / 100))`, in exact arithmetic. -/
def gstOf (subtotal gstRate : Int) : Int :=
  mathRound ((subtotal : ℚ) * ((gstRate : ℚ) / 100))

/-- `settings.freeShippingThreshold || 25000` (source line 87). -/
def effThreshold (settingsDoc : Option StoreSettings) : Int :=
  jsOr (settingsDoc.getD {}).freeShippingThreshold 25000

/-- `settings.shippingCost || 500` (source line 88). -/
def effShipCost (settingsDoc : Option StoreSettings) : Int :=
  jsOr (settingsDoc.getD {}).shippingCost 500

/-- `settings.gst || 5` (source line 89). -/
def effGstRate (settingsDoc : Option StoreSettings) : Int :=
  jsOr (settingsDoc.getD {}).gst 5

/-- `subtotal >= freeShippingThreshold ? 0 : shippingCost` (source line 91). -/
def shippingOf (settingsDoc : Option StoreSettings) (subtotal : Int) : Int :=
  if subtotal ≥ effThreshold settingsDoc then 0 else effShipCost settingsDoc

/-- `totalAmount = subtotal + shipping + gst` (source line 93). -/
def totalOf (settingsDoc : Option StoreSettings) (subtotal : Int) : Int :=
  subtotal + shippingOf settingsDoc subtotal + gstOf subtotal (effGstRate settingsDoc)

/-- The order document written by `db.collection("orders").add` (source
lines 104–129). -/
def mkOrder (req : CreateOrderRequest) (settingsDoc : Option StoreSettings)
    (gatewayOrderId : String) (subtotal : Int)
    (verifiedItems : List VerifiedItem) : Order :=
  let c := req.customer.getD ⟨"", "", ""⟩
  let a := req.shippingAddress.getD ⟨"", "", none, ""⟩
  { customer :=
      { name := c.name.trim
        email := c.email.trim.toLower
        phone := stripSpaces c.phone }
    shippingAddress :=
      { address := a.address.trim
        city := a.city.trim
        state := (jsOrStr a.state "").trim
        pincode := a.pincode.trim
        country := "India" }
    items := verifiedItems
    itemCount := (verifiedItems.map (·.quantity)).sum
    subtotal := subtotal
    shipping := shippingOf settingsDoc subtotal
    gst := gstOf subtotal (effGstRate settingsDoc)
    totalAmount := totalOf settingsDoc subtotal
    notes := (jsOrStr req.notes "").trim
    razorpayOrderId := gatewayOrderId
    paymentMethod := "razorpay"
    status := "pending" }

/-- The `createOrder` handler.  External effects are made explicit:
`gatewayOk` is whether the Razorpay `orders.create` call succeeds (assigning
id `gatewayOrderId`), `persistOk` whether the Firestore `orders.add`
succeeds (assigning id `orderId`); a failing external call raises, which the
surrounding `try`/`catch` turns into a generic 500 (`internalError`). -/
def createOrder (catalog : String → Option Product)
    (settingsDoc : Option StoreSettings)
    (gatewayOk persistOk : Bool) (gatewayOrderId orderId : String)
    (req : CreateOrderRequest) : CreateOutcome :=
  if req.items.isEmpty then ⟨.error .cartRequired, none, none⟩
  else if ¬ customerOk req.customer then ⟨.error .customerRequired, none, none⟩
  else if ¬ addressOk req.shippingAddress then ⟨.error .addressRequired, none, none⟩
  else
    match processItems catalog req.items with
    | .error e => ⟨.error e, none, none⟩
    | .ok (subtotal, verifiedItems) =>
      if ¬ gatewayOk then ⟨.error .internalError, none, none⟩
      else
        let rzpOrder : GatewayOrder :=
          ⟨gatewayOrderId, totalOf settingsDoc subtotal * 100, "INR"⟩
        if ¬ persistOk then ⟨.error .internalError, some rzpOrder, none⟩
        else
          ⟨.ok ⟨orderId, rzpOrder.id, totalOf settingsDoc subtotal, "INR"⟩,
            some rzpOrder,
            some (mkOrder req settingsDoc gatewayOrderId subtotal verifiedItems)⟩

/-! ## Payment settlement (`verifyPayment`) -/

structure VerifyRequest where
  orderId : String
  razorpayOrderId : String
  razorpayPaymentId : String
  razorpaySignature : String
deriving Repr, DecidableEq

inductive VerifyResp where
  | missingFields
  | verificationFailed
  | orderNotFound
  | internalError
  | success (orderId : String)
deriving Repr, DecidableEq

/-- The Firestore state `verifyPayment` reads and writes. -/
structure DB where
  orders : String → Option Order
  products : String → Option Product

/-- The exact string that is HMAC'd: `` `${razorpayOrderId}|${razorpayPaymentId}` ``. -/
def hmacInput (razorpayOrderId razorpayPaymentId : String) : String :=
  razorpayOrderId ++ "|" ++ razorpayPaymentId

/-- One `batch.update(productRef, { stock: increment(-quantity) })`: Firestore
`increment` treats an absent numeric field as `0`. -/
def decrementItem (ps : String → Option Product) (it : VerifiedItem) :
    String → Option Product :=
  fun pid =>
    if pid = it.productId then
      (ps pid).map (fun p => { p with stock := some (p.stock.getD 0 - it.quantity) })
    else ps pid

/-- The batched stock updates, applied in item order. -/
def decrementAll (ps : String → Option Product) (items : List VerifiedItem) :
    String → Option Product :=
  items.foldl decrementItem ps

/-- The batched order update: status `"paid"` plus the client-submitted
payment id, gateway order id and signature, and a paid timestamp. -/
def paidOrder (o : Order) (req : VerifyRequest) : Order :=
  { o with
    status := "paid"
    razorpayPaymentId := some req.razorpayPaymentId
    razorpayOrderId := req.razorpayOrderId
    razorpaySignature := some req.razorpaySignature
    paidAt := true }

/-- `batch.commit()` succeeds only if every updated product document exists
(a Firestore `update` on a missing document fails the whole batch). -/
def batchOk (db : DB) (items : List VerifiedItem) : Bool :=
  items.all (fun it => (db.products it.productId).isSome)

/-- The `verifyPayment` handler.  `hmac secret msg` models
`crypto.createHmac("sha256", secret).update(msg).digest("hex")`; the batch
commit is a single atomic transition on the database state. -/
def verifyPayment (hmac : String → String → String) (keySecret : String)
    (db : DB) (req : VerifyRequest) : VerifyResp × DB :=
  if req.orderId = "" ∨ req.razorpayOrderId = "" ∨ req.razorpayPaymentId = ""
      ∨ req.razorpaySignature = "" then
    (.missingFields, db)
  else
    let expectedSignature :=
      hmac keySecret (hmacInput req.razorpayOrderId req.razorpayPaymentId)
    if expectedSignature ≠ req.razorpaySignature then (.verificationFailed, db)
    else
      match db.orders req.orderId with
      | none => (.orderNotFound, db)
      | some orderData =>
        if batchOk db orderData.items then
          (.success req.orderId,
            { orders := fun oid =>
                if oid = req.orderId then some (paidOrder orderData req)
                else db.orders oid
              products := decrementAll db.products orderData.items })
        else (.internalError, db)

/-! ## Spec-side derived definitions -/

/-- The catalog-price contribution of one cart line. -/
def lineSubtotal (catalog : String → Option Product) (l : CartLine) : Int :=
  match catalog l.productId with
  | some p => p.price * l.quantity
  | none => 0

/-- The subtotal the spec demands: sum over cart lines, in client order, of
catalog price × requested quantity. -/
def subtotalSpec (catalog : String → Option Product) (items : List CartLine) : Int :=
  (items.map (lineSubtotal catalog)).sum

/-- The verified line item the spec demands for one cart line (the `none`
branch is unreachable on any accepted cart). -/
def verifiedSpec (catalog : String → Option Product) (l : CartLine) : VerifiedItem :=
  match catalog l.productId with
  | some p => verifiedOf l p
  | none => ⟨l.productId, "", 0, l.quantity, ""⟩

/-- Erase the client-submitted price field of a cart line. -/
def stripClientPrice (l : CartLine) : CartLine :=
  { l with clientPrice := none }

/-- A cart line that must make `createOrder` reject the whole cart: the
product is absent from the catalog, or its finite stock is below the
requested quantity. -/
def badLine (catalog : String → Option Product) (l : CartLine) : Prop :=
  catalog l.productId = none ∨
    ∃ p s, catalog l.productId = some p ∧ p.stock = some s ∧ s < l.quantity

/-- Whether a settlement response is the 200 success. -/
def isSuccess : VerifyResp → Bool
  | .success _ => true
  | _ => false

/-- The quantity total of the lines of an order that reference a given
product (with distinct product ids per order this is the single line's
quantity). -/
def sumQty (items : List VerifiedItem) (pid : String) : Int :=
  ((items.filter (fun it => it.productId = pid)).map (·.quantity)).sum

/-! ## Concrete fixtures used by witnesses and counterexamples -/

/-- A one-product catalog: "p1" priced 1000 with finite stock 5. -/
def catalogW : String → Option Product := fun pid =>
  if pid = "p1" then some ⟨"Silk Saree", 1000, some 5, some "img1", []⟩ else none

/-- A well-formed create-order request for two units of "p1". -/
def reqW : CreateOrderRequest :=
  { items := [⟨"p1", 2, none⟩]
    customer := some ⟨"Asha", "A@b.c", "98 76"⟩
    shippingAddress := some ⟨"12 St", "Chennai", some "TN", "600001"⟩
    notes := none }

/-- The same request with a (lying) client-submitted price on the line. -/
def reqWlied : CreateOrderRequest :=
  { reqW with items := [⟨"p1", 2, some 1⟩] }

/-- A request whose second line has a negative quantity. -/
def reqWneg : CreateOrderRequest :=
  { reqW with items := [⟨"p1", 2, none⟩, ⟨"p1", -1, none⟩] }

/-- A stand-in for HMAC-SHA256 (the handlers are parametric in the HMAC). -/
def hmacW : String → String → String := fun key msg => "hmac[" ++ key ++ "](" ++ msg ++ ")"

/-- A pending order for two units of "p1", as `createOrder` would persist. -/
def orderW : Order :=
  { customer := ⟨"Asha", "a@b.c", "9876"⟩
    shippingAddress := ⟨"12 St", "Chennai", "TN", "600001", "India"⟩
    items := [⟨"p1", "Silk Saree", 1000, 2, "img1"⟩]
    itemCount := 2
    subtotal := 2000
    shipping := 500
    gst := 100
    totalAmount := 2600
    notes := ""
    razorpayOrderId := "rzp_created"
    paymentMethod := "razorpay"
    status := "pending" }

/-- A database holding the pending order "o1" and the product "p1". -/
def dbW : DB :=
  { orders := fun oid => if oid = "o1" then some orderW else none
    products := fun pid => if pid = "p1" then some ⟨"Silk Saree", 1000, some 5, some "img1", []⟩ else none }

/-- A settlement request for "o1" whose signature is valid under `hmacW` and
secret "sec", and whose gateway order id differs from the stored one. -/
def vreqW : VerifyRequest :=
  { orderId := "o1"
    razorpayOrderId := "rzp_submitted"
    razorpayPaymentId := "pay_7"
    razorpaySignature := hmacW "sec" (hmacInput "rzp_submitted" "pay_7") }

/-- The same settlement request with a forged signature. -/
def vreqWbad : VerifyRequest :=
  { vreqW with razorpaySignature := "forged" }

/-- A request asking for 10 units of "p1", more than its stock of 5. -/
def reqWbig : CreateOrderRequest :=
  { reqW with items := [⟨"p1", 10, none⟩] }

/-- A request for a product that is not in the catalog. -/
def reqWmissing : CreateOrderRequest :=
  { reqW with items := [⟨"p1", 2, none⟩, ⟨"p9", 1, none⟩] }

/-! ## Helper lemmas -/

theorem jsOr_ne_zero (x : Option Int) (d : Int) (hd : d ≠ 0) : jsOr x d ≠ 0 := by
  cases x with
  | none => simpa [jsOr] using hd
  | some v =>
    by_cases hv : v = 0 <;> simp [jsOr, hv, hd]

theorem gstOf_eq_intDiv (s r : ℤ) : gstOf s r = (s * r + 50) / 100 := by
  unfold gstOf mathRound
  have h : (s : ℚ) * ((r : ℚ) / 100) + 1 / 2
      = ((s * r + 50 : ℤ) : ℚ) / ((100 : ℕ) : ℚ) := by
    push_cast; ring
  rw [h, Rat.floor_intCast_div_natCast]
  norm_num

theorem processItems_ok {catalog : String → Option Product} :
    ∀ {items : List CartLine} {s : Int} {vs : List VerifiedItem},
    processItems catalog items = .ok (s, vs) →
    s = subtotalSpec catalog items ∧ vs = items.map (verifiedSpec catalog) := by
  intro items
  induction items with
  | nil =>
    intro s vs h
    simp [processItems] at h
    simp [subtotalSpec, ← h.1, ← h.2]
  | cons line rest ih =>
    intro s vs h
    cases hcat : catalog line.productId with
    | none => simp [processItems, hcat] at h
    | some p =>
      by_cases hst : stockOk p line.quantity
      · cases hrec : processItems catalog rest with
        | error e => simp [processItems, hcat, hst, hrec] at h
        | ok pr =>
          obtain ⟨s0, vs0⟩ := pr
          simp [processItems, hcat, hst, hrec] at h
          obtain ⟨ih1, ih2⟩ := ih hrec
          refine ⟨?_, ?_⟩
          · simp [subtotalSpec, lineSubtotal, hcat, ← h.1, ih1, subtotalSpec]
          · simp [verifiedSpec, hcat, ← h.2, ih2]
      · simp [processItems, hcat, hst] at h

theorem processItems_error_of_bad {catalog : String → Option Product}
    {items : List CartLine} (h : ∃ l ∈ items, badLine catalog l) :
    ∃ e, processItems catalog items = .error e := by
  induction items with
  | nil => simp at h
  | cons line rest ih =>
    obtain ⟨l, hl, hbad⟩ := h
    rcases List.mem_cons.mp hl with rfl | hmem
    · rcases hbad with hnone | ⟨p, st, hp, hstock, hlt⟩
      · exact ⟨.productNotFound l.productId, by simp [processItems, hnone]⟩
      · refine ⟨.outOfStock p.name p.stock, ?_⟩
        have hst : stockOk p l.quantity = false := by
          simp [stockOk, hstock]
          omega
        simp [processItems, hp, hst]
    · cases hcat : catalog line.productId with
      | none => exact ⟨.productNotFound line.productId, by simp [processItems, hcat]⟩
      | some p =>
        by_cases hst : stockOk p line.quantity
        · obtain ⟨e, he⟩ := ih ⟨l, hmem, hbad⟩
          exact ⟨e, by simp [processItems, hcat, hst, he]⟩
        · exact ⟨.outOfStock p.name p.stock, by simp [processItems, hcat, hst]⟩

theorem processItems_strip (catalog : String → Option Product) :
    ∀ items : List CartLine,
    processItems catalog (items.map stripClientPrice) = processItems catalog items := by
  intro items
  induction items with
  | nil => rfl
  | cons l r ih => simp only [List.map_cons, processItems, stripClientPrice, verifiedOf, ih]

theorem createOrder_ok_elim {catalog : String → Option Product}
    {settingsDoc : Option StoreSettings} {gOk pOk : Bool} {gwId oid : String}
    {req : CreateOrderRequest} {r : CreateOk}
    (h : (createOrder catalog settingsDoc gOk pOk gwId oid req).result = .ok r) :
    ∃ s vs,
      processItems catalog req.items = .ok (s, vs) ∧
      r = ⟨oid, gwId, totalOf settingsDoc s, "INR"⟩ ∧
      createOrder catalog settingsDoc gOk pOk gwId oid req =
        ⟨.ok ⟨oid, gwId, totalOf settingsDoc s, "INR"⟩,
          some ⟨gwId, totalOf settingsDoc s * 100, "INR"⟩,
          some (mkOrder req settingsDoc gwId s vs)⟩ := by
  by_cases h1 : req.items.isEmpty
  · simp [createOrder, h1] at h
  by_cases h2 : customerOk req.customer
  case neg => simp [createOrder, h1, h2] at h
  by_cases h3 : addressOk req.shippingAddress
  case neg => simp [createOrder, h1, h2, h3] at h
  cases hproc : processItems catalog req.items with
  | error e => simp [createOrder, h1, h2, h3, hproc] at h
  | ok pr =>
    obtain ⟨s, vs⟩ := pr
    cases gOk with
    | false => simp [createOrder, h1, h2, h3, hproc] at h
    | true =>
      cases pOk with
      | false => simp [createOrder, h1, h2, h3, hproc] at h
      | true =>
        refine ⟨s, vs, rfl, ?_, ?_⟩
        · simp [createOrder, h1, h2, h3, hproc] at h
          exact h.symm
        · simp [createOrder, h1, h2, h3, hproc]

theorem createOrder_strip_items (catalog : String → Option Product)
    (settingsDoc : Option StoreSettings) (gOk pOk : Bool) (gwId oid : String)
    (req : CreateOrderRequest) (items₂ : List CartLine)
    (h : items₂.map stripClientPrice = req.items.map stripClientPrice) :
    createOrder catalog settingsDoc gOk pOk gwId oid { req with items := items₂ }
      = createOrder catalog settingsDoc gOk pOk gwId oid req := by
  have hproc : processItems catalog items₂ = processItems catalog req.items := by
    rw [← processItems_strip catalog items₂, h, processItems_strip]
  have hlen : items₂.length = req.items.length := by
    simpa using congrArg List.length h
  have hempty : items₂.isEmpty = req.items.isEmpty := by
    cases items₂ with
    | nil =>
      cases h3 : req.items with
      | nil => rfl
      | cons b u => rw [h3] at hlen; simp at hlen
    | cons a t =>
      cases h3 : req.items with
      | nil => rw [h3] at hlen; simp at hlen
      | cons b u => rfl
  have hmk : ∀ (s : Int) (vs : List VerifiedItem),
      mkOrder { req with items := items₂ } settingsDoc gwId s vs
        = mkOrder req settingsDoc gwId s vs := fun _ _ => rfl
  simp only [createOrder]
  rw [hempty, hproc]
  simp only [hmk]

theorem decrementAll_not_mem :
    ∀ (items : List VerifiedItem) (ps : String → Option Product) (pid : String),
    pid ∉ items.map (·.productId) → decrementAll ps items pid = ps pid := by
  intro items
  induction items with
  | nil => intro ps pid _; rfl
  | cons it rest ih =>
    intro ps pid hpid
    simp only [List.map_cons, List.mem_cons] at hpid
    push_neg at hpid
    have hstep : decrementItem ps it pid = ps pid := by
      simp [decrementItem, hpid.1]
    calc decrementAll ps (it :: rest) pid
        = decrementAll (decrementItem ps it) rest pid := rfl
      _ = decrementItem ps it pid := ih _ pid hpid.2
      _ = ps pid := hstep

theorem sumQty_not_mem (items : List VerifiedItem) (pid : String)
    (h : pid ∉ items.map (·.productId)) : sumQty items pid = 0 := by
  induction items with
  | nil => rfl
  | cons it rest ih =>
    simp only [List.map_cons, List.mem_cons] at h
    push_neg at h
    have : it.productId ≠ pid := fun he => h.1 he.symm
    simp [sumQty, List.filter_cons, this]
    simpa [sumQty] using ih h.2

theorem sumQty_nodup (items : List VerifiedItem)
    (hnd : (items.map (·.productId)).Nodup) :
    ∀ it ∈ items, sumQty items it.productId = it.quantity := by
  induction items with
  | nil => intro it h; simp at h
  | cons x rest ih =>
    simp only [List.map_cons, List.nodup_cons] at hnd
    intro it hit
    rcases List.mem_cons.mp hit with rfl | hmem
    · have hrest : it.productId ∉ rest.map (·.productId) := hnd.1
      simp [sumQty, List.filter_cons]
      simpa [sumQty] using sumQty_not_mem rest it.productId hrest
    · have hx : x.productId ≠ it.productId := by
        intro he
        exact hnd.1 (he ▸ List.mem_map_of_mem (·.productId) hmem)
      have := ih hnd.2 it hmem
      simpa [sumQty, List.filter_cons, hx] using this

theorem decrementAll_mem :
    ∀ (items : List VerifiedItem) (ps : String → Option Product)
      (pid : String) (p : Product),
    ps pid = some p → pid ∈ items.map (·.productId) →
    decrementAll ps items pid
      = some { p with stock := some (p.stock.getD 0 - sumQty items pid) } := by
  intro items
  induction items with
  | nil => intro ps pid p _ hmem; simp at hmem
  | cons it rest ih =>
    intro ps pid p hp hmem
    by_cases hpid : it.productId = pid
    · have hstep : decrementItem ps it pid
          = some { p with stock := some (p.stock.getD 0 - it.quantity) } := by
        simp [decrementItem, hpid, hp]
      by_cases hrest : pid ∈ rest.map (·.productId)
      · have := ih (decrementItem ps it) pid
          { p with stock := some (p.stock.getD 0 - it.quantity) } hstep hrest
        calc decrementAll ps (it :: rest) pid
            = decrementAll (decrementItem ps it) rest pid := rfl
          _ = _ := this
          _ = some { p with stock := some (p.stock.getD 0 - sumQty (it :: rest) pid) } := by
              simp [sumQty, List.filter_cons, hpid]
              ring_nf
      · have hz := sumQty_not_mem rest pid hrest
        calc decrementAll ps (it :: rest) pid
            = decrementAll (decrementItem ps it) rest pid := rfl
          _ = decrementItem ps it pid := decrementAll_not_mem rest _ pid hrest
          _ = some { p with stock := some (p.stock.getD 0 - it.quantity) } := hstep
          _ = some { p with stock := some (p.stock.getD 0 - sumQty (it :: rest) pid) } := by
              simp [sumQty, List.filter_cons, hpid, hz]
              simpa [sumQty] using hz
    · have hne : pid ≠ it.productId := fun he => hpid he.symm
      have hstep : decrementItem ps it pid = ps pid := by
        simp [decrementItem, hne]
      have hmem' : pid ∈ rest.map (·.productId) := by
        simp only [List.map_cons, List.mem_cons] at hmem
        rcases hmem with he | hm
        · exact absurd he hne
        · exact hm
      have := ih (decrementItem ps it) pid p (hstep.trans hp) hmem'
      calc decrementAll ps (it :: rest) pid
          = decrementAll (decrementItem ps it) rest pid := rfl
        _ = some { p with stock := some (p.stock.getD 0 - sumQty rest pid) } := this
        _ = some { p with stock := some (p.stock.getD 0 - sumQty (it :: rest) pid) } := by
            simp [sumQty, List.filter_cons, hpid]

/-! ## Claim theorems -/

/-- Claim C1: for every cart accepted by `createOrder`, the persisted
subtotal equals the sum over the cart lines, in client order, of catalog
price × requested quantity; the gateway amount is the derived total × 100;
the verified items' name/price/image are copied from the catalog; and any
client-submitted price field on a cart line has no effect on the outcome. -/
theorem createOrder_subtotal_from_catalog
    (catalog : String → Option Product) (settingsDoc : Option StoreSettings)
    (gOk pOk : Bool) (gwId oid : String) (req : CreateOrderRequest) (r : CreateOk)
    (h : (createOrder catalog settingsDoc gOk pOk gwId oid req).result = .ok r) :
    ∃ o gw,
      (createOrder catalog settingsDoc gOk pOk gwId oid req).orderPersisted = some o ∧
      (createOrder catalog settingsDoc gOk pOk gwId oid req).gatewayCreated = some gw ∧
      o.subtotal = subtotalSpec catalog req.items ∧
      o.items = req.items.map (verifiedSpec catalog) ∧
      o.totalAmount = o.subtotal + o.shipping + o.gst ∧
      gw.amount = o.totalAmount * 100 ∧
      r.amount = o.totalAmount ∧
      ∀ items₂ : List CartLine,
        items₂.map stripClientPrice = req.items.map stripClientPrice →
        createOrder catalog settingsDoc gOk pOk gwId oid { req with items := items₂ }
          = createOrder catalog settingsDoc gOk pOk gwId oid req := by
  obtain ⟨s, vs, hproc, hr, hout⟩ := createOrder_ok_elim h
  obtain ⟨hs, hvs⟩ := processItems_ok hproc
  refine ⟨mkOrder req settingsDoc gwId s vs,
    ⟨gwId, totalOf settingsDoc s * 100, "INR"⟩, ?_, ?_, ?_, ?_, ?_, ?_, ?_, ?_⟩
  · rw [hout]
  · rw [hout]
  · simpa [mkOrder] using hs
  · simpa [mkOrder] using hvs
  · simp [mkOrder, totalOf]
  · simp [mkOrder, totalOf]
  · rw [hr]; simp [mkOrder, totalOf]
  · intro items₂ hi
    exact createOrder_strip_items catalog settingsDoc gOk pOk gwId oid req items₂ hi

/-- Witness for C1 at a concrete accepted cart: a client-side price on the
line changes nothing. -/
theorem createOrder_subtotal_from_catalog_witness :
    (createOrder catalogW none true true "rzp1" "o1" reqW).result
      = .ok ⟨"o1", "rzp1", 2600, "INR"⟩ ∧
    createOrder catalogW none true true "rzp1" "o1" reqWlied
      = createOrder catalogW none true true "rzp1" "o1" reqW := by
  have hok : (createOrder catalogW none true true "rzp1" "o1" reqW).result
      = .ok ⟨"o1", "rzp1", 2600, "INR"⟩ := by
    simp [createOrder, processItems, stockOk, verifiedOf, customerOk, addressOk,
      jsOr, jsOrStr, gstOf_eq_intDiv, effThreshold, effShipCost, effGstRate,
      shippingOf, totalOf, mkOrder, catalogW, reqW]
  obtain ⟨o, gw, -, -, -, -, -, -, -, hinv⟩ :=
    createOrder_subtotal_from_catalog catalogW none true true "rzp1" "o1" reqW
      ⟨"o1", "rzp1", 2600, "INR"⟩ hok
  exact ⟨hok, hinv [⟨"p1", 2, some 1⟩] (by decide)⟩

/-- Claim C5: a cart line referencing a missing product, or asking more
than a finite recorded stock, makes `createOrder` reject the whole request:
the response is an error, no order document and no gateway order are
created. -/
theorem createOrder_rejects_bad_line
    (catalog : String → Option Product) (settingsDoc : Option StoreSettings)
    (gOk pOk : Bool) (gwId oid : String) (req : CreateOrderRequest)
    (h : ∃ l ∈ req.items, badLine catalog l) :
    ∃ e, createOrder catalog settingsDoc gOk pOk gwId oid req
      = ⟨.error e, none, none⟩ := by
  obtain ⟨e, he⟩ := processItems_error_of_bad h
  by_cases h1 : req.items.isEmpty
  · exact ⟨.cartRequired, by simp [createOrder, h1]⟩
  by_cases h2 : customerOk req.customer
  case neg => exact ⟨.customerRequired, by simp [createOrder, h1, h2]⟩
  by_cases h3 : addressOk req.shippingAddress
  case neg => exact ⟨.addressRequired, by simp [createOrder, h1, h2, h3]⟩
  exact ⟨e, by simp [createOrder, h1, h2, h3, he]⟩

/-- Witness for C5: asking 10 units of a product with stock 5 yields an
error and neither document. -/
theorem createOrder_rejects_bad_line_witness :
    (∃ l ∈ reqWbig.items, badLine catalogW l) ∧
    ∃ e, createOrder catalogW none true true "rzp1" "o1" reqWbig
      = ⟨.error e, none, none⟩ := by
  have hbad : ∃ l ∈ reqWbig.items, badLine catalogW l := by
    refine ⟨⟨"p1", 10, none⟩, by simp [reqWbig, reqW], Or.inr ?_⟩
    exact ⟨⟨"Silk Saree", 1000, some 5, some "img1", []⟩, 5,
      by simp [catalogW], rfl, by decide⟩
  exact ⟨hbad,
    createOrder_rejects_bad_line catalogW none true true "rzp1" "o1" reqWbig hbad⟩

/-- Claim C8: `createOrder` computes gst as half-up rounding of
subtotal × rate / 100 and total = subtotal + shipping + gst; in particular
gst is 50 at subtotal 1000 and 17 at subtotal 333 (rate 5). -/
theorem createOrder_gst_half_up
    (catalog : String → Option Product) (settingsDoc : Option StoreSettings)
    (gOk pOk : Bool) (gwId oid : String) (req : CreateOrderRequest) (r : CreateOk)
    (h : (createOrder catalog settingsDoc gOk pOk gwId oid req).result = .ok r) :
    ∃ o,
      (createOrder catalog settingsDoc gOk pOk gwId oid req).orderPersisted = some o ∧
      o.gst = gstOf o.subtotal (effGstRate settingsDoc) ∧
      o.totalAmount = o.subtotal + o.shipping + o.gst ∧
      (∀ s rate : Int, gstOf s rate = ⌊((s * rate : Int) : ℚ) / 100 + 1 / 2⌋) ∧
      gstOf 1000 5 = 50 ∧ gstOf 333 5 = 17 := by
  obtain ⟨s, vs, hproc, hr, hout⟩ := createOrder_ok_elim h
  refine ⟨mkOrder req settingsDoc gwId s vs, ?_, ?_, ?_, ?_, ?_, ?_⟩
  · rw [hout]
  · simp [mkOrder]
  · simp [mkOrder, totalOf]
  · intro s' rate
    unfold gstOf mathRound
    congr 1
    push_cast
    ring
  · rw [gstOf_eq_intDiv]; decide
  · rw [gstOf_eq_intDiv]; decide

/-- Witness for C8 at a concrete accepted cart (subtotal 2000, rate 5,
gst 100). -/
theorem createOrder_gst_half_up_witness :
    ∃ o,
      (createOrder catalogW none true true "rzp1" "o1" reqW).orderPersisted = some o ∧
      o.gst = gstOf o.subtotal (effGstRate none) ∧
      o.totalAmount = o.subtotal + o.shipping + o.gst ∧
      (∀ s rate : Int, gstOf s rate = ⌊((s * rate : Int) : ℚ) / 100 + 1 / 2⌋) ∧
      gstOf 1000 5 = 50 ∧ gstOf 333 5 = 17 :=
  createOrder_gst_half_up catalogW none true true "rzp1" "o1" reqW
    ⟨"o1", "rzp1", 2600, "INR"⟩
    (by simp [createOrder, processItems, stockOk, verifiedOf, customerOk, addressOk,
      jsOr, jsOrStr, gstOf_eq_intDiv, effThreshold, effShipCost, effGstRate,
      shippingOf, totalOf, mkOrder, catalogW, reqW])

/-- Claim C9: the persisted shipping fee is 0 exactly when the subtotal
reaches the effective free-shipping threshold, and otherwise equals the
effective flat cost; with no settings document the defaults 25000 / 500 / 5
apply. -/
theorem createOrder_shipping_threshold
    (catalog : String → Option Product) (settingsDoc : Option StoreSettings)
    (gOk pOk : Bool) (gwId oid : String) (req : CreateOrderRequest) (r : CreateOk)
    (h : (createOrder catalog settingsDoc gOk pOk gwId oid req).result = .ok r) :
    ∃ o,
      (createOrder catalog settingsDoc gOk pOk gwId oid req).orderPersisted = some o ∧
      o.shipping = shippingOf settingsDoc o.subtotal ∧
      (o.shipping = 0 ↔ o.subtotal ≥ effThreshold settingsDoc) ∧
      (o.subtotal < effThreshold settingsDoc → o.shipping = effShipCost settingsDoc) ∧
      (settingsDoc = none →
        effThreshold settingsDoc = 25000 ∧ effShipCost settingsDoc = 500 ∧
        effGstRate settingsDoc = 5) := by
  obtain ⟨s, vs, hproc, hr, hout⟩ := createOrder_ok_elim h
  have hcost : effShipCost settingsDoc ≠ 0 :=
    jsOr_ne_zero _ 500 (by decide)
  have hsub : (mkOrder req settingsDoc gwId s vs).subtotal = s := by simp [mkOrder]
  have hship : (mkOrder req settingsDoc gwId s vs).shipping
      = shippingOf settingsDoc s := by simp [mkOrder]
  refine ⟨mkOrder req settingsDoc gwId s vs, ?_, ?_, ?_, ?_, ?_⟩
  · rw [hout]
  · rw [hship, hsub]
  · rw [hship, hsub]
    unfold shippingOf
    by_cases hc : s ≥ effThreshold settingsDoc
    · simp [hc]
    · simp [hc, hcost]
  · intro hlt
    rw [hsub] at hlt
    rw [hship]
    simp [shippingOf, not_le.mpr hlt]
  · intro hnone
    subst hnone
    exact ⟨rfl, rfl, rfl⟩

/-- Witness for C9 at a concrete accepted cart with no settings document:
subtotal 2000 is below the default threshold 25000, so shipping is 500. -/
theorem createOrder_shipping_threshold_witness :
    ∃ o,
      (createOrder catalogW none true true "rzp1" "o1" reqW).orderPersisted = some o ∧
      o.shipping = shippingOf none o.subtotal ∧
      (o.shipping = 0 ↔ o.subtotal ≥ effThreshold none) ∧
      (o.subtotal < effThreshold none → o.shipping = effShipCost none) ∧
      (none = (none : Option StoreSettings) →
        effThreshold none = 25000 ∧ effShipCost none = 500 ∧ effGstRate none = 5) :=
  createOrder_shipping_threshold catalogW none true true "rzp1" "o1" reqW
    ⟨"o1", "rzp1", 2600, "INR"⟩
    (by simp [createOrder, processItems, stockOk, verifiedOf, customerOk, addressOk,
      jsOr, jsOrStr, gstOf_eq_intDiv, effThreshold, effShipCost, effGstRate,
      shippingOf, totalOf, mkOrder, catalogW, reqW])

/-- Claim C10: `createOrder` accepts a line with a negative quantity — the
stock check only fails when a finite stock is below the quantity — and the
negative line strictly lowers the persisted subtotal and the gateway
amount (here from 2000/260000 to 1000/155000). -/
theorem createOrder_accepts_negative_quantity :
    (createOrder catalogW none true true "rzp1" "o1" reqWneg).result
      = .ok ⟨"o1", "rzp1", 1550, "INR"⟩ ∧
    ((createOrder catalogW none true true "rzp1" "o1" reqWneg).orderPersisted.map
      (·.subtotal)) = some 1000 ∧
    ((createOrder catalogW none true true "rzp1" "o1" reqWneg).gatewayCreated.map
      (·.amount)) = some 155000 ∧
    (createOrder catalogW none true true "rzp1" "o1" reqW).result
      = .ok ⟨"o1", "rzp1", 2600, "INR"⟩ ∧
    ((createOrder catalogW none true true "rzp1" "o1" reqW).orderPersisted.map
      (·.subtotal)) = some 2000 ∧
    ((createOrder catalogW none true true "rzp1" "o1" reqW).gatewayCreated.map
      (·.amount)) = some 260000 ∧
    (1000 : Int) < 2000 ∧ (155000 : Int) < 260000 := by
  refine ⟨?_, ?_, ?_, ?_, ?_, ?_, by decide, by decide⟩ <;>
    simp [createOrder, processItems, stockOk, verifiedOf, customerOk, addressOk,
      jsOr, jsOrStr, gstOf_eq_intDiv, effThreshold, effShipCost, effGstRate,
      shippingOf, totalOf, mkOrder, catalogW, reqW, reqWneg]

/-- Claim C3: `verifyPayment` recomputes the HMAC of
`"{gatewayOrderId}|{paymentId}"` under the server secret and compares it to
the submitted signature by exact equality; any mismatch (on a request with
all fields present) is rejected with the verification-failure error and the
database state is returned unchanged. -/
theorem verifyPayment_sig_mismatch_no_change
    (hmac : String → String → String) (secret : String) (db : DB)
    (req : VerifyRequest)
    (h1 : req.orderId ≠ "") (h2 : req.razorpayOrderId ≠ "")
    (h3 : req.razorpayPaymentId ≠ "") (h4 : req.razorpaySignature ≠ "")
    (hsig : hmac secret (hmacInput req.razorpayOrderId req.razorpayPaymentId)
      ≠ req.razorpaySignature) :
    verifyPayment hmac secret db req = (.verificationFailed, db) := by
  simp [verifyPayment, h1, h2, h3, h4, hsig]

/-- Witness for C3: a forged signature on a concrete request is rejected
with no state change. -/
theorem verifyPayment_sig_mismatch_no_change_witness :
    verifyPayment hmacW "sec" dbW vreqWbad = (.verificationFailed, dbW) :=
  verifyPayment_sig_mismatch_no_change hmacW "sec" dbW vreqWbad
    (by decide) (by decide) (by decide) (by decide) (by decide)

/-- Claim C7: `verifyPayment` never compares the submitted gateway order id
with the one stored on the loaded order: for any stored order, a request
with a valid signature marks it paid and overwrites its gateway order
reference and payment fields with the submitted values. -/
theorem verifyPayment_ignores_stored_gateway_ref
    (hmac : String → String → String) (secret : String) (db : DB)
    (req : VerifyRequest) (o : Order)
    (h1 : req.orderId ≠ "") (h2 : req.razorpayOrderId ≠ "")
    (h3 : req.razorpayPaymentId ≠ "") (h4 : req.razorpaySignature ≠ "")
    (hsig : hmac secret (hmacInput req.razorpayOrderId req.razorpayPaymentId)
      = req.razorpaySignature)
    (ho : db.orders req.orderId = some o)
    (hbatch : batchOk db o.items = true) :
    (verifyPayment hmac secret db req).1 = .success req.orderId ∧
    (verifyPayment hmac secret db req).2.orders req.orderId
      = some (paidOrder o req) ∧
    (paidOrder o req).razorpayOrderId = req.razorpayOrderId ∧
    (paidOrder o req).razorpayPaymentId = some req.razorpayPaymentId ∧
    (paidOrder o req).razorpaySignature = some req.razorpaySignature ∧
    (paidOrder o req).status = "paid" := by
  refine ⟨?_, ?_, rfl, rfl, rfl, rfl⟩ <;>
    simp [verifyPayment, h1, h2, h3, h4, hsig, ho, hbatch]

/-- Witness for C7: the stored gateway order id "rzp_created" differs from
the submitted "rzp_submitted", yet settlement succeeds and overwrites it. -/
theorem verifyPayment_ignores_stored_gateway_ref_witness :
    orderW.razorpayOrderId ≠ vreqW.razorpayOrderId ∧
    (verifyPayment hmacW "sec" dbW vreqW).1 = .success vreqW.orderId ∧
    (verifyPayment hmacW "sec" dbW vreqW).2.orders vreqW.orderId
      = some (paidOrder orderW vreqW) ∧
    (paidOrder orderW vreqW).razorpayOrderId = vreqW.razorpayOrderId := by
  have h := verifyPayment_ignores_stored_gateway_ref hmacW "sec" dbW vreqW orderW
    (by decide) (by decide) (by decide) (by decide) rfl (by decide) (by decide)
  exact ⟨by decide, h.1, h.2.1, h.2.2.1⟩

/-- Claim C4: a successful `verifyPayment` on an existing order decrements
each line item's product stock by exactly that line's quantity and marks
the order paid with the payment reference, gateway order reference,
signature and paid timestamp attached; the write is one atomic transition,
and any call that does not succeed leaves the database unchanged. -/
theorem verifyPayment_settlement_atomic
    (hmac : String → String → String) (secret : String) (db : DB)
    (req : VerifyRequest) (o : Order)
    (h1 : req.orderId ≠ "") (h2 : req.razorpayOrderId ≠ "")
    (h3 : req.razorpayPaymentId ≠ "") (h4 : req.razorpaySignature ≠ "")
    (hsig : hmac secret (hmacInput req.razorpayOrderId req.razorpayPaymentId)
      = req.razorpaySignature)
    (ho : db.orders req.orderId = some o)
    (hbatch : batchOk db o.items = true)
    (hnd : (o.items.map (·.productId)).Nodup) :
    (verifyPayment hmac secret db req).1 = .success req.orderId ∧
    (verifyPayment hmac secret db req).2.orders req.orderId
      = some (paidOrder o req) ∧
    (paidOrder o req).status = "paid" ∧
    (paidOrder o req).paidAt = true ∧
    (paidOrder o req).razorpayPaymentId = some req.razorpayPaymentId ∧
    (paidOrder o req).razorpayOrderId = req.razorpayOrderId ∧
    (paidOrder o req).razorpaySignature = some req.razorpaySignature ∧
    (∀ it ∈ o.items, ∀ p, db.products it.productId = some p →
      (verifyPayment hmac secret db req).2.products it.productId
        = some { p with stock := some (p.stock.getD 0 - it.quantity) }) ∧
    (∀ pid, pid ∉ o.items.map (·.productId) →
      (verifyPayment hmac secret db req).2.products pid = db.products pid) ∧
    (∀ (db' : DB) (req' : VerifyRequest),
      isSuccess (verifyPayment hmac secret db' req').1 = false →
      (verifyPayment hmac secret db' req').2 = db') := by
  have hout : verifyPayment hmac secret db req
      = (.success req.orderId,
          { orders := fun oid =>
              if oid = req.orderId then some (paidOrder o req) else db.orders oid
            products := decrementAll db.products o.items }) := by
    simp [verifyPayment, h1, h2, h3, h4, hsig, ho, hbatch]
  refine ⟨?_, ?_, rfl, rfl, rfl, rfl, rfl, ?_, ?_, ?_⟩
  · rw [hout]
  · rw [hout]; simp
  · intro it hit p hp
    have hm : it.productId ∈ o.items.map (·.productId) :=
      List.mem_map_of_mem (·.productId) hit
    have hd := decrementAll_mem o.items db.products it.productId p hp hm
    rw [hout]
    show decrementAll db.products o.items it.productId
      = some { p with stock := some (p.stock.getD 0 - it.quantity) }
    rw [hd, sumQty_nodup o.items hnd it hit]
  · intro pid hpid
    rw [hout]
    exact decrementAll_not_mem o.items db.products pid hpid
  · intro db' req' hns
    by_cases m1 : req'.orderId = "" ∨ req'.razorpayOrderId = ""
        ∨ req'.razorpayPaymentId = "" ∨ req'.razorpaySignature = ""
    · simp [verifyPayment, m1]
    · by_cases m2 : hmac secret (hmacInput req'.razorpayOrderId req'.razorpayPaymentId)
          ≠ req'.razorpaySignature
      · simp [verifyPayment, m1, m2]
      · cases hor : db'.orders req'.orderId with
        | none => simp [verifyPayment, m1, m2, hor]
        | some o' =>
          by_cases m3 : batchOk db' o'.items
          · exfalso
            simp [verifyPayment, m1, m2, hor, m3, isSuccess] at hns
          · simp [verifyPayment, m1, m2, hor, m3]

/-- Witness for C4 at a concrete settlement: stock of "p1" drops from 5 to
3 and order "o1" reads paid. -/
theorem verifyPayment_settlement_atomic_witness :
    (verifyPayment hmacW "sec" dbW vreqW).1 = .success vreqW.orderId ∧
    (verifyPayment hmacW "sec" dbW vreqW).2.orders vreqW.orderId
      = some (paidOrder orderW vreqW) ∧
    ((verifyPayment hmacW "sec" dbW vreqW).2.products "p1").map (·.stock)
      = some (some 3) := by
  have h := verifyPayment_settlement_atomic hmacW "sec" dbW vreqW orderW
    (by decide) (by decide) (by decide) (by decide) rfl (by decide) (by decide)
    (by decide)
  refine ⟨h.1, h.2.1, ?_⟩
  have hp := h.2.2.2.2.2.2.2.1 ⟨"p1", "Silk Saree", 1000, 2, "img1"⟩ (by decide)
    ⟨"Silk Saree", 1000, some 5, some "img1", []⟩ (by decide)
  have hp' : (verifyPayment hmacW "sec" dbW vreqW).2.products "p1"
      = some ⟨"Silk Saree", 1000, some 3, some "img1", []⟩ := by simpa using hp
  rw [hp']
  rfl

/-- Claim C2 evaluation: re-submitting the same valid settlement for the
already-paid order "o1" decrements the stock of "p1" a second time (5 → 3
after the first call, 3 → 1 after the second), because `verifyPayment`
never checks the order's status. -/
theorem verifyPayment_double_decrement :
    ((verifyPayment hmacW "sec" dbW vreqW).2.orders "o1").map (·.status)
      = some "paid" ∧
    ((verifyPayment hmacW "sec" dbW vreqW).2.products "p1").map (·.stock)
      = some (some 3) ∧
    isSuccess (verifyPayment hmacW "sec"
      (verifyPayment hmacW "sec" dbW vreqW).2 vreqW).1 = true ∧
    ((verifyPayment hmacW "sec"
      (verifyPayment hmacW "sec" dbW vreqW).2 vreqW).2.products "p1").map (·.stock)
      = some (some 1) := by
  refine ⟨?_, ?_, ?_, ?_⟩ <;> decide

/-- Claim C6, counterexample: when the Firestore write of the Order fails
after the gateway order was created, the gateway order remains — so it is
false that "if either operation fails, neither remains". -/
theorem createOrder_persist_failure_leaves_gateway_order :
    (createOrder catalogW none true false "rzp1" "o1" reqW).result
      = .error .internalError ∧
    (createOrder catalogW none true false "rzp1" "o1" reqW).gatewayCreated
      = some ⟨"rzp1", 260000, "INR"⟩ ∧
    (createOrder catalogW none true false "rzp1" "o1" reqW).orderPersisted
      = none := by
  refine ⟨?_, ?_, ?_⟩ <;>
    simp [createOrder, processItems, stockOk, verifiedOf, customerOk, addressOk,
      jsOr, jsOrStr, gstOf_eq_intDiv, effThreshold, effShipCost, effGstRate,
      shippingOf, totalOf, mkOrder, catalogW, reqW]

/-- Claim C6, amended: gateway-order creation failure rejects the whole
request with no gateway order and no Order persisted; Order-persistence
failure rejects the request with no Order persisted, but a gateway order
created earlier in the call is not removed. -/
theorem createOrder_gateway_failure_unit
    (catalog : String → Option Product) (settingsDoc : Option StoreSettings)
    (gwId oid : String) (req : CreateOrderRequest) :
    (∀ pOk, ∃ e, createOrder catalog settingsDoc false pOk gwId oid req
        = ⟨.error e, none, none⟩) ∧
    (∀ gOk, (createOrder catalog settingsDoc gOk false gwId oid req).orderPersisted
        = none ∧
      ∃ e, (createOrder catalog settingsDoc gOk false gwId oid req).result
        = .error e) := by
  constructor
  · intro pOk
    by_cases h1 : req.items.isEmpty
    · exact ⟨.cartRequired, by simp [createOrder, h1]⟩
    by_cases h2 : customerOk req.customer
    case neg => exact ⟨.customerRequired, by simp [createOrder, h1, h2]⟩
    by_cases h3 : addressOk req.shippingAddress
    case neg => exact ⟨.addressRequired, by simp [createOrder, h1, h2, h3]⟩
    cases hproc : processItems catalog req.items with
    | error e => exact ⟨e, by simp [createOrder, h1, h2, h3, hproc]⟩
    | ok pr =>
      exact ⟨.internalError, by
        obtain ⟨s, vs⟩ := pr
        simp [createOrder, h1, h2, h3, hproc]⟩
  · intro gOk
    by_cases h1 : req.items.isEmpty
    · exact ⟨by simp [createOrder, h1], .cartRequired, by simp [createOrder, h1]⟩
    by_cases h2 : customerOk req.customer
    case neg =>
      exact ⟨by simp [createOrder, h1, h2], .customerRequired,
        by simp [createOrder, h1, h2]⟩
    by_cases h3 : addressOk req.shippingAddress
    case neg =>
      exact ⟨by simp [createOrder, h1, h2, h3], .addressRequired,
        by simp [createOrder, h1, h2, h3]⟩
    cases hproc : processItems catalog req.items with
    | error e =>
      exact ⟨by simp [createOrder, h1, h2, h3, hproc], e,
        by simp [createOrder, h1, h2, h3, hproc]⟩
    | ok pr =>
      obtain ⟨s, vs⟩ := pr
      cases gOk with
      | false =>
        exact ⟨by simp [createOrder, h1, h2, h3, hproc], .internalError,
          by simp [createOrder, h1, h2, h3, hproc]⟩
      | true =>
        exact ⟨by simp [createOrder, h1, h2, h3, hproc], .internalError,
          by simp [createOrder, h1, h2, h3, hproc]⟩

end PremamSilks
